import Mathlib

/-!
# Verification of the session-progress aggregation logic of `user-manager.js`

Shallow embedding of the Profile Aggregator of the teacher-simulator
repository: `UserManager.updateSkills`, `UserManager.calculateStreak`,
`UserManager.checkAchievements` and the pure computation performed by
`UserManager.saveSessionResults` (src/user-manager.js).

JavaScript numbers are modelled as `JSNum`: either `NaN`, an infinity, or an
exact rational (the arithmetic the code performs — `+`, `*`, `/`,
`Math.round`, `Math.min`, `Math.floor` — is modelled exactly over ℚ, with the
IEEE special values `NaN` and `±Infinity` represented explicitly because the
code's `isNaN` guards distinguish them).  A JavaScript value that may also be
`undefined` (an absent object property) is a `JSVal`.
-/

set_option autoImplicit false

namespace TeacherSim

/-- A JavaScript number: `NaN`, `+Infinity`, `-Infinity`, or a finite value
(modelled as an exact rational). -/
inductive JSNum where
  | nan : JSNum
  | posInf : JSNum
  | negInf : JSNum
  | fin : ℚ → JSNum
deriving DecidableEq, Repr

/-- A JavaScript value read from an object property: either `undefined`
(absent property) or a number. -/
inductive JSVal where
  | undef : JSVal
  | num : JSNum → JSVal
deriving DecidableEq, Repr

namespace JSNum

/-- `isNaN(x)` for a number `x`. -/
def isNaN : JSNum → Bool
  | nan => true
  | _ => false

/-- JavaScript `+` on numbers. -/
def add : JSNum → JSNum → JSNum
  | nan, _ => nan
  | _, nan => nan
  | posInf, negInf => nan
  | negInf, posInf => nan
  | posInf, _ => posInf
  | _, posInf => posInf
  | negInf, _ => negInf
  | _, negInf => negInf
  | fin a, fin b => fin (a + b)

/-- JavaScript `*` on numbers. -/
def mul : JSNum → JSNum → JSNum
  | nan, _ => nan
  | _, nan => nan
  | posInf, posInf => posInf
  | posInf, negInf => negInf
  | negInf, posInf => negInf
  | negInf, negInf => posInf
  | posInf, fin b => if 0 < b then posInf else if b < 0 then negInf else nan
  | fin a, posInf => if 0 < a then posInf else if a < 0 then negInf else nan
  | negInf, fin b => if 0 < b then negInf else if b < 0 then posInf else nan
  | fin a, negInf => if 0 < a then negInf else if a < 0 then posInf else nan
  | fin a, fin b => fin (a * b)

/-- JavaScript `/` on numbers (the sign of a zero is not tracked: division of
a nonzero finite value by zero is given the sign of the numerator). -/
def div : JSNum → JSNum → JSNum
  | nan, _ => nan
  | _, nan => nan
  | posInf, posInf => nan
  | posInf, negInf => nan
  | negInf, posInf => nan
  | negInf, negInf => nan
  | posInf, fin b => if b < 0 then negInf else posInf
  | negInf, fin b => if b < 0 then posInf else negInf
  | fin _, posInf => fin 0
  | fin _, negInf => fin 0
  | fin a, fin b =>
      if b = 0 then (if a = 0 then nan else if 0 < a then posInf else negInf)
      else fin (a / b)

/-- JavaScript `Math.round` (round half towards `+∞`, i.e. `⌊x + 1/2⌋`). -/
def round : JSNum → JSNum
  | nan => nan
  | posInf => posInf
  | negInf => negInf
  | fin q => fin ((⌊q + 1 / 2⌋ : ℤ) : ℚ)

/-- JavaScript `Math.min` of two numbers (`NaN` if either argument is `NaN`). -/
def jmin : JSNum → JSNum → JSNum
  | nan, _ => nan
  | _, nan => nan
  | negInf, _ => negInf
  | _, negInf => negInf
  | posInf, b => b
  | a, posInf => a
  | fin a, fin b => fin (min a b)

/-- JavaScript `x >= c` for a number `x` and a finite constant `c`
(`false` when `x` is `NaN`). -/
def ge (x : JSNum) (c : ℚ) : Bool :=
  match x with
  | nan => false
  | posInf => true
  | negInf => false
  | fin q => decide (c ≤ q)

end JSNum

namespace JSVal

/-- JavaScript `v >= c` where `v` may be `undefined` (`undefined` coerces to
`NaN`, so the comparison is `false`). -/
def ge (v : JSVal) (c : ℚ) : Bool :=
  match v with
  | undef => false
  | num x => x.ge c

end JSVal

/-- The four-field skills object (`userDoc.skills`, and likewise the session's
`skillsGained` object); each property may be absent. -/
structure SkillsObj where
  empathy : JSVal
  conflictResolution : JSVal
  boundaryKeeping : JSVal
  patience : JSVal
deriving DecidableEq, Repr

/-- A skills object with every property absent. -/
def SkillsObj.allUndef : SkillsObj :=
  { empathy := .undef, conflictResolution := .undef,
    boundaryKeeping := .undef, patience := .undef }

/-- The skills object returned by `updateSkills`: all four values are
numbers. -/
structure NewSkills where
  empathy : JSNum
  conflictResolution : JSNum
  boundaryKeeping : JSNum
  patience : JSNum
deriving DecidableEq, Repr

/-- View the result of `updateSkills` as a stored skills object (all
properties present). -/
def NewSkills.toObj (s : NewSkills) : SkillsObj :=
  { empathy := .num s.empathy, conflictResolution := .num s.conflictResolution,
    boundaryKeeping := .num s.boundaryKeeping, patience := .num s.patience }

/-- `userDoc.progress`.  `lastSessionDate` is a Firestore timestamp or `null`,
modelled as an optional epoch-milliseconds integer. -/
structure Progress where
  totalSessions : JSNum
  completedScenarios : JSNum
  averageScore : JSNum
  totalTimeSpent : JSNum
  streak : JSNum
  lastSessionDate : Option ℤ
deriving DecidableEq, Repr

/-- The unlocked-achievement record, one flag per achievement id of the fixed
five-entry table (`true` = an entry for that id is present). -/
structure AchSet where
  firstSession : Bool
  empathyMaster : Bool
  patientTeacher : Bool
  perfectionist : Bool
  weekStreak : Bool
deriving DecidableEq, Repr

/-- The empty achievement record. -/
def AchSet.none : AchSet :=
  { firstSession := false, empathyMaster := false, patientTeacher := false,
    perfectionist := false, weekStreak := false }

/-- Union of two achievement records (the Firestore field-wise update merges
the newly unlocked entries into the stored map). -/
def AchSet.union (a b : AchSet) : AchSet :=
  { firstSession := a.firstSession || b.firstSession,
    empathyMaster := a.empathyMaster || b.empathyMaster,
    patientTeacher := a.patientTeacher || b.patientTeacher,
    perfectionist := a.perfectionist || b.perfectionist,
    weekStreak := a.weekStreak || b.weekStreak }

/-- The loaded user document (`this.userDoc`): progress, skills, and the
achievement record. -/
structure UserDoc where
  progress : Progress
  skills : SkillsObj
  achievements : AchSet
deriving DecidableEq, Repr

/-- The session result passed to `saveSessionResults`.  `skillsGained` is
`none` when the property is absent (`undefined`/`null`). -/
structure Session where
  score : JSNum
  duration : JSNum
  skillsGained : Option SkillsObj
deriving DecidableEq, Repr

/-- The one error the modelled computation can raise: the `TypeError` thrown
by a property access on `undefined`/`null`. -/
inductive JSErr where
  | typeError : JSErr
deriving DecidableEq, Repr

/-- `getVal` of `updateSkills`:
`typeof val === 'number' && !isNaN(val) ? val : 0`. -/
def getVal (v : JSVal) : JSNum :=
  match v with
  | .undef => .fin 0
  | .num x => if x.isNaN then .fin 0 else x

/-- `getCur` of `updateSkills`:
`typeof val === 'number' && !isNaN(val) ? val : 50`. -/
def getCur (v : JSVal) : JSNum :=
  match v with
  | .undef => .fin 50
  | .num x => if x.isNaN then .fin 50 else x

/-- One skill of `updateSkills`:
`Math.min(100, Math.round(getCur(cur) * 0.7 + getVal(gained) * 0.3))`. -/
def skillEMA (cur gained : JSVal) : JSNum :=
  JSNum.jmin (.fin 100)
    (JSNum.round (JSNum.add (JSNum.mul (getCur cur) (.fin (7 / 10)))
      (JSNum.mul (getVal gained) (.fin (3 / 10)))))

/-- `UserManager.updateSkills(currentSkills, sessionSkills, sessionCount)`.
When `sessionSkills` is absent (`undefined`/`null`), the property access
`sessionSkills.empathy` throws a `TypeError` before any output is produced.
The `sessionCount` parameter is accepted but never used, as in the source. -/
def updateSkills (currentSkills : SkillsObj) (sessionSkills : Option SkillsObj)
    (_sessionCount : JSNum) : Except JSErr NewSkills :=
  match sessionSkills with
  | none => .error .typeError
  | some g =>
      .ok { empathy := skillEMA currentSkills.empathy g.empathy,
            conflictResolution :=
              skillEMA currentSkills.conflictResolution g.conflictResolution,
            boundaryKeeping :=
              skillEMA currentSkills.boundaryKeeping g.boundaryKeeping,
            patience := skillEMA currentSkills.patience g.patience }

/-- The value returned by `calculateStreak`: `null` (same day), the string
`'increment'` (consecutive day), or the number `1` (no previous session, or
streak broken). -/
inductive StreakUpdate where
  | sameDay : StreakUpdate
  | increment : StreakUpdate
  | resetOne : StreakUpdate
deriving DecidableEq, Repr

/-- Milliseconds per day, `1000 * 60 * 60 * 24`. -/
def msPerDay : ℚ := 1000 * 60 * 60 * 24

/-- `Math.floor((now - last) / (1000 * 60 * 60 * 24))` for epoch-millisecond
timestamps: floor division of the elapsed milliseconds by one day.  (Lean's
integer `/` rounds towards `-∞` for a positive divisor; `daysDiff_eq_floor`
below proves it equal to the floor of the exact rational quotient.) -/
def daysDiff (now last : ℤ) : ℤ :=
  (now - last) / 86400000

/-- `UserManager.calculateStreak(lastSessionDate)`.  The source reads the
clock internally (`const now = new Date()`); that read is made explicit here
as the `now` argument. -/
def calculateStreak (lastSessionDate : Option ℤ) (now : ℤ) : StreakUpdate :=
  match lastSessionDate with
  | none => .resetOne
  | some last =>
      if daysDiff now last = 0 then .sameDay
      else if daysDiff now last = 1 then .increment
      else .resetOne

/-- The requirement predicates of the five `AchievementDefinition`s of
`getAchievementsToCheck`, evaluated on a user document and a session, and the
already-unlocked filter of `checkAchievements`: an achievement id is collected
exactly when it is not already present in `user.achievements` and its
requirement holds. -/
def checkAchievements (user : UserDoc) (session : Session) : AchSet :=
  { firstSession := !user.achievements.firstSession &&
      user.progress.totalSessions.ge 1,
    empathyMaster := !user.achievements.empathyMaster &&
      user.skills.empathy.ge 80,
    patientTeacher := !user.achievements.patientTeacher &&
      user.skills.patience.ge 90,
    perfectionist := !user.achievements.perfectionist && session.score.ge 95,
    weekStreak := !user.achievements.weekStreak &&
      user.progress.streak.ge 7 }

/-- The pure computation of `UserManager.saveSessionResults(sessionData)`:
given the loaded user document, the session data and the current time, it
returns the user document as stored (and subsequently reloaded) together with
the set of newly unlocked achievement ids, or the caught error when a step
throws.  Note that `checkAchievements` is invoked on `this.userDoc`, i.e. on
the PRE-update document — the reload happens only afterwards. -/
def saveSessionResults (doc : UserDoc) (session : Session) (now : ℤ) :
    Except JSErr (UserDoc × AchSet) :=
  let newTotalSessions := JSNum.add doc.progress.totalSessions (.fin 1)
  let newAverageScore := JSNum.round
    (JSNum.div
      (JSNum.add (JSNum.mul doc.progress.averageScore doc.progress.totalSessions)
        session.score)
      newTotalSessions)
  let streakUpdate := calculateStreak doc.progress.lastSessionDate now
  let newStreak :=
    match streakUpdate with
    | .increment => JSNum.add doc.progress.streak (.fin 1)
    | .sameDay => doc.progress.streak
    | .resetOne => JSNum.fin 1
  match updateSkills doc.skills session.skillsGained newTotalSessions with
  | .error e => .error e
  | .ok newSkills =>
      let newlyUnlocked := checkAchievements doc session
      .ok ({ progress :=
               { totalSessions := newTotalSessions,
                 completedScenarios :=
                   JSNum.add doc.progress.completedScenarios (.fin 1),
                 averageScore := newAverageScore,
                 totalTimeSpent :=
                   JSNum.add doc.progress.totalTimeSpent session.duration,
                 streak := newStreak,
                 lastSessionDate := some now },
             skills := newSkills.toObj,
             achievements := doc.achievements.union newlyUnlocked },
           newlyUnlocked)

/-- The initial progress record created by `createUserDocument`. -/
def initialProgress : Progress :=
  { totalSessions := .fin 0, completedScenarios := .fin 0,
    averageScore := .fin 0, totalTimeSpent := .fin 0, streak := .fin 0,
    lastSessionDate := none }

/-- The initial user document created by `createUserDocument` (all-zero
progress and skills, no achievements). -/
def initialUserDoc : UserDoc :=
  { progress := initialProgress,
    skills := { empathy := .num (.fin 0), conflictResolution := .num (.fin 0),
                boundaryKeeping := .num (.fin 0), patience := .num (.fin 0) },
    achievements := AchSet.none }

/-- A skill value that is either absent or a whole number in `[0, 100]`
(a well-formed stored or gained skill value). -/
def ValIn100 (v : JSVal) : Prop :=
  v = .undef ∨ ∃ k : ℕ, k ≤ 100 ∧ v = .num (.fin k)

/-- Every present value of the skills object is a whole number in
`[0, 100]`. -/
def SkillsObj.InRange (s : SkillsObj) : Prop :=
  ValIn100 s.empathy ∧ ValIn100 s.conflictResolution ∧
    ValIn100 s.boundaryKeeping ∧ ValIn100 s.patience

/-- A number that is finite and lies in `[0, 100]`. -/
def JSNum.Bounded (x : JSNum) : Prop :=
  ∃ q : ℚ, x = .fin q ∧ 0 ≤ q ∧ q ≤ 100

/-- The value the claim's formula assigns to one skill: the current and the
gained values are kept only when they are finite numbers (defaults `50` and
`0` otherwise) and the clamp is applied before rounding,
`round(min(100, c * 0.7 + g * 0.3))`. -/
def claimFiniteOr (v : JSVal) (d : ℚ) : ℚ :=
  match v with
  | .num (.fin q) => q
  | _ => d

/-- The per-skill output claimed for `updateSkills` (see `claimFiniteOr`). -/
def claimSkillValue (cv gv : JSVal) : ℚ :=
  ((⌊min 100 (claimFiniteOr cv 50 * (7 / 10) + claimFiniteOr gv 0 * (3 / 10))
      + 1 / 2⌋ : ℤ) : ℚ)

/-- The per-skill output of `updateSkills` written in the claim's shape —
rounding applied after the clamp — but with the source's defaulting rule
(`getCur`/`getVal`: any non-`NaN` number is kept, `±Infinity` included). -/
def specEMA (cur gained : JSVal) : JSNum :=
  JSNum.round (JSNum.jmin (.fin 100)
    (JSNum.add (JSNum.mul (getCur cur) (.fin (7 / 10)))
      (JSNum.mul (getVal gained) (.fin (3 / 10)))))

/-- The user document of the spec's concrete first-session scenario: all-zero
progress, all four skills absent, no achievements. -/
def scenarioDoc : UserDoc :=
  { progress := initialProgress, skills := SkillsObj.allUndef,
    achievements := AchSet.none }

/-- The session of the spec's concrete first-session scenario:
`{score: 95, duration: 600, skillsGained: {empathy: 90, patience: 95}}`. -/
def scenarioSession : Session :=
  { score := .fin 95, duration := .fin 600,
    skillsGained := some { empathy := .num (.fin 90), conflictResolution := .undef,
                           boundaryKeeping := .undef, patience := .num (.fin 95) } }

/-- A well-formed session used to probe the first-session achievement:
score `80`, duration `600`, no skill gains. -/
def probeSession : Session :=
  { score := .fin 80, duration := .fin 600, skillsGained := some SkillsObj.allUndef }

/-- A session whose score is `NaN` (an input the caller was supposed to have
validated). -/
def nanScoreSession : Session :=
  { score := .nan, duration := .fin 0, skillsGained := some SkillsObj.allUndef }

/-- A gained-skills object whose `empathy` property is `+Infinity` — a number
(`typeof` is `'number'`, `isNaN` is `false`) that is not finite. -/
def infGained : SkillsObj :=
  { empathy := .num .posInf, conflictResolution := .undef,
    boundaryKeeping := .undef, patience := .undef }

/-- The prior user document for the second-session scenario: one session
folded, average `95`, streak `1`, last session at epoch time `0`. -/
def secondSessionDoc : UserDoc :=
  { progress := { totalSessions := .fin 1, completedScenarios := .fin 1,
                  averageScore := .fin 95, totalTimeSpent := .fin 600,
                  streak := .fin 1, lastSessionDate := some 0 },
    skills := SkillsObj.allUndef,
    achievements := AchSet.none }

/-- The second session of the spec's scenario: score `60`, no skill gains. -/
def secondSession : Session :=
  { score := .fin 60, duration := .fin 0, skillsGained := some SkillsObj.allUndef }

/-! ## Supporting lemmas -/

/-- `daysDiff` is exactly `Math.floor` of the exact quotient
`(now - last) / msPerDay`, as computed by the source. -/
theorem daysDiff_eq_floor (now last : ℤ) :
    daysDiff now last = ⌊((now : ℚ) - (last : ℚ)) / msPerDay⌋ := by
  have h := Rat.floor_intCast_div_natCast (now - last) 86400000
  rw [show (msPerDay : ℚ) = ((86400000 : ℕ) : ℚ) by norm_num [msPerDay],
      show ((now : ℚ) - (last : ℚ)) = (((now - last : ℤ) : ℤ) : ℚ) by push_cast; ring,
      h, daysDiff]
  norm_num

/-- Clamping at `100` before or after rounding half-up gives the same
integer. -/
theorem floor_min_add_half (q : ℚ) :
    ⌊min (100 : ℚ) q + 1 / 2⌋ = min 100 ⌊q + 1 / 2⌋ := by
  rcases le_total q 100 with h | h
  · rw [min_eq_right h, min_eq_right]
    have hlt : ⌊q + 1 / 2⌋ < 101 := by
      rw [Int.floor_lt]
      push_cast
      linarith
    omega
  · rw [min_eq_left h, min_eq_left]
    · norm_num [Int.floor_eq_iff]
    · rw [Int.le_floor]
      push_cast
      linarith

/-- `Math.round (Math.min 100 x) = Math.min 100 (Math.round x)` for every
JavaScript number `x`: the source's clamp-after-round equals the spec's
round-after-clamp. -/
theorem round_jmin_hundred (x : JSNum) :
    JSNum.round (JSNum.jmin (.fin 100) x) = JSNum.jmin (.fin 100) (JSNum.round x) := by
  cases x with
  | nan => rfl
  | posInf =>
      show JSNum.round (.fin 100) = JSNum.jmin (.fin 100) .posInf
      norm_num [JSNum.round, JSNum.jmin, Int.floor_eq_iff]
  | negInf => rfl
  | fin q =>
      show JSNum.round (.fin (min 100 q)) = JSNum.jmin (.fin 100) (.fin ((⌊q + 1 / 2⌋ : ℤ) : ℚ))
      rw [JSNum.round, JSNum.jmin, floor_min_add_half]
      push_cast [Int.cast_min]
      norm_num

/-- The spec-shaped per-skill value coincides with the source's `skillEMA`. -/
theorem specEMA_eq_skillEMA (cur gained : JSVal) :
    specEMA cur gained = skillEMA cur gained := by
  rw [specEMA, skillEMA, round_jmin_hundred]

/-- `getCur` of a well-formed skill value is a finite number in `[0, 100]`. -/
theorem getCur_bounds (v : JSVal) (h : ValIn100 v) :
    ∃ c : ℚ, getCur v = .fin c ∧ 0 ≤ c ∧ c ≤ 100 := by
  rcases h with h | ⟨k, hk, h⟩
  · exact ⟨50, by rw [h]; rfl, by norm_num, by norm_num⟩
  · refine ⟨k, by rw [h]; rfl, by positivity, ?_⟩
    exact_mod_cast hk

/-- `getVal` of a well-formed gained value is a finite number in `[0, 100]`. -/
theorem getVal_bounds (v : JSVal) (h : ValIn100 v) :
    ∃ g : ℚ, getVal v = .fin g ∧ 0 ≤ g ∧ g ≤ 100 := by
  rcases h with h | ⟨k, hk, h⟩
  · exact ⟨0, by rw [h]; rfl, by norm_num, by norm_num⟩
  · refine ⟨k, by rw [h]; rfl, by positivity, ?_⟩
    exact_mod_cast hk

/-- One skill output of `updateSkills` is finite and lies in `[0, 100]`
whenever both inputs are well formed. -/
theorem skillEMA_bounded (cv gv : JSVal) (hc : ValIn100 cv) (hg : ValIn100 gv) :
    JSNum.Bounded (skillEMA cv gv) := by
  obtain ⟨c, hcv, hc0, hc100⟩ := getCur_bounds cv hc
  obtain ⟨g, hgv, hg0, hg100⟩ := getVal_bounds gv hg
  refine ⟨min 100 ((⌊c * (7 / 10) + g * (3 / 10) + 1 / 2⌋ : ℤ) : ℚ), ?_, ?_, ?_⟩
  · rw [skillEMA, hcv, hgv]
    rfl
  · refine le_min (by norm_num) ?_
    have : (0 : ℤ) ≤ ⌊c * (7 / 10) + g * (3 / 10) + 1 / 2⌋ := by
      rw [Int.le_floor]
      push_cast
      nlinarith
    exact_mod_cast this
  · exact min_le_left _ _

/-! ## C3 — the streak computation and the clock -/

/-- C3 counterexample: the source's `calculateStreak` takes only
`lastSessionDate` and reads the clock internally (`new Date()`); with the
clock read made explicit, the same explicit input `lastSessionDate = some 0`
yields different modes at two different clock readings, so the computation is
not a deterministic function of the code's explicit inputs only. -/
theorem calculateStreak_depends_on_internal_clock :
    calculateStreak (some 0) 86400000 ≠ calculateStreak (some 0) 0 := by decide

/-- C3 amended: once the internal `new Date()` read is made an explicit
argument, `calculateStreak` is deterministic — its mode depends only on the
presence of `lastSessionDate` and on the floored day difference. -/
theorem calculateStreak_deterministic_given_clock (last now₁ now₂ : ℤ)
    (h : daysDiff now₁ last = daysDiff now₂ last) :
    calculateStreak (some last) now₁ = calculateStreak (some last) now₂ := by
  simp only [calculateStreak, h]

theorem calculateStreak_deterministic_given_clock_witness :
    daysDiff 300 0 = daysDiff 0 0 ∧
      calculateStreak (some 0) 300 = calculateStreak (some 0) 0 :=
  ⟨by decide, calculateStreak_deterministic_given_clock 0 300 0 (by decide)⟩

/-! ## C7 — elapsed-time streak semantics -/

/-- C7: for `now ≥ last`, `calculateStreak` returns reset-to-one when
`lastSessionDate` is absent, none (`null`) when `⌊(now - last) / 24h⌋ = 0`,
increment when the floored day difference is `1`, and reset-to-one when it is
greater than `1` — elapsed-time semantics, not calendar-date equality. -/
theorem calculateStreak_elapsed_time_semantics (last now : ℤ) (_h : last ≤ now) :
    calculateStreak none now = .resetOne ∧
      (⌊((now : ℚ) - (last : ℚ)) / msPerDay⌋ = 0 →
        calculateStreak (some last) now = .sameDay) ∧
      (⌊((now : ℚ) - (last : ℚ)) / msPerDay⌋ = 1 →
        calculateStreak (some last) now = .increment) ∧
      (1 < ⌊((now : ℚ) - (last : ℚ)) / msPerDay⌋ →
        calculateStreak (some last) now = .resetOne) := by
  refine ⟨rfl, ?_, ?_, ?_⟩ <;>
    rw [← daysDiff_eq_floor] <;>
    intro hd
  · simp [calculateStreak, hd]
  · simp [calculateStreak, hd]
  · rw [calculateStreak, if_neg (by omega), if_neg (by omega)]

/-- Witness for C7 at `last = 0`: 23h59m elapsed gives none, 25h gives
increment, 49h gives reset-to-one. -/
theorem calculateStreak_elapsed_time_semantics_witness :
    ((0 : ℤ) ≤ 86340000 ∧ calculateStreak (some 0) 86340000 = .sameDay) ∧
      ((0 : ℤ) ≤ 90000000 ∧ calculateStreak (some 0) 90000000 = .increment) ∧
      ((0 : ℤ) ≤ 176400000 ∧ calculateStreak (some 0) 176400000 = .resetOne) := by
  refine ⟨⟨by decide, ?_⟩, ⟨by decide, ?_⟩, ⟨by decide, ?_⟩⟩
  · exact (calculateStreak_elapsed_time_semantics 0 86340000 (by decide)).2.1
      (by rw [← daysDiff_eq_floor]; decide)
  · exact (calculateStreak_elapsed_time_semantics 0 90000000 (by decide)).2.2.1
      (by rw [← daysDiff_eq_floor]; decide)
  · exact (calculateStreak_elapsed_time_semantics 0 176400000 (by decide)).2.2.2
      (by rw [← daysDiff_eq_floor]; decide)

/-! ## C9 — clock moved backwards -/

/-- C9: when `lastSessionDate` is strictly later than `now`, the floored day
difference is negative, so neither the same-day nor the consecutive-day branch
applies and `calculateStreak` returns reset-to-one. -/
theorem calculateStreak_clock_moved_backwards (last now : ℤ) (h : now < last) :
    calculateStreak (some last) now = .resetOne := by
  have hd : daysDiff now last < 0 := by
    rw [daysDiff_eq_floor, Int.floor_lt]
    push_cast
    apply div_neg_of_neg_of_pos
    · have h' : (now : ℚ) < (last : ℚ) := by exact_mod_cast h
      linarith
    · norm_num [msPerDay]
  rw [calculateStreak, if_neg (by omega), if_neg (by omega)]

theorem calculateStreak_clock_moved_backwards_witness :
    (0 : ℤ) < 1 ∧ calculateStreak (some 1) 0 = .resetOne :=
  ⟨by decide, calculateStreak_clock_moved_backwards 1 0 (by decide)⟩

/-! ## C10 — absent skillsGained object -/

/-- C10: `updateSkills` throws (a `TypeError` from the property access on
`undefined`) when the gained map itself is absent, producing no output, while
a present map with every individual key absent succeeds (each gain treated
as `0`). -/
theorem updateSkills_requires_gains_object (cur : SkillsObj) (k : JSNum) :
    updateSkills cur none k = .error .typeError ∧
      (updateSkills cur (some SkillsObj.allUndef) k).isOk = true :=
  ⟨rfl, rfl⟩

/-! ## Evaluation lemmas for concrete runs -/

/-- Evaluates one skill of `updateSkills` once the defaulted inputs and the
rounded value are known and the rounded value does not exceed the clamp. -/
theorem skillEMA_fin_eval (cv gv : JSVal) (c g : ℚ) (z : ℤ)
    (hc : getCur cv = .fin c) (hg : getVal gv = .fin g)
    (hz : ⌊c * (7 / 10) + g * (3 / 10) + 1 / 2⌋ = z) (hle : z ≤ 100) :
    skillEMA cv gv = .fin (z : ℚ) := by
  rw [skillEMA, hc, hg]
  simp only [JSNum.mul, JSNum.add, JSNum.round, JSNum.jmin, hz]
  rw [min_eq_right]
  exact_mod_cast hle

/-- Closed form of the session fold when the gained-skills object is present:
the match on the result of `updateSkills` is resolved, leaving each stored
field as the source computes it.  `checkAchievements` is applied to the
pre-update document `doc`, exactly as the source does. -/
theorem saveSessionResults_eq (doc : UserDoc) (s : Session) (g : SkillsObj) (now : ℤ)
    (hG : s.skillsGained = some g) :
    saveSessionResults doc s now = .ok
      ({ progress :=
           { totalSessions := JSNum.add doc.progress.totalSessions (.fin 1),
             completedScenarios := JSNum.add doc.progress.completedScenarios (.fin 1),
             averageScore := JSNum.round (JSNum.div
               (JSNum.add (JSNum.mul doc.progress.averageScore doc.progress.totalSessions)
                 s.score)
               (JSNum.add doc.progress.totalSessions (.fin 1))),
             totalTimeSpent := JSNum.add doc.progress.totalTimeSpent s.duration,
             streak := match calculateStreak doc.progress.lastSessionDate now with
               | .increment => JSNum.add doc.progress.streak (.fin 1)
               | .sameDay => doc.progress.streak
               | .resetOne => .fin 1,
             lastSessionDate := some now },
         skills :=
           { empathy := .num (skillEMA doc.skills.empathy g.empathy),
             conflictResolution :=
               .num (skillEMA doc.skills.conflictResolution g.conflictResolution),
             boundaryKeeping :=
               .num (skillEMA doc.skills.boundaryKeeping g.boundaryKeeping),
             patience := .num (skillEMA doc.skills.patience g.patience) },
         achievements := doc.achievements.union (checkAchievements doc s) },
       checkAchievements doc s) := by
  simp only [saveSessionResults, hG, updateSkills, NewSkills.toObj]

/-! ## C5 — the updateSkills formula -/

/-- C5 counterexample: a gained value of `+Infinity` passes the code's
`isNaN` check (it is a number and not `NaN`), so the code keeps it and the
clamp produces `100`; the claim's formula treats it as non-finite, defaults
it to `0`, and yields `round(min(100, 50*0.7 + 0*0.3)) = 35 ≠ 100`. -/
theorem updateSkills_keeps_infinite_gain :
    (updateSkills SkillsObj.allUndef (some infGained) (.fin 1)).map NewSkills.empathy
        = .ok (.fin 100) ∧
      claimSkillValue SkillsObj.allUndef.empathy infGained.empathy = 35 ∧
      JSNum.fin 100 ≠ JSNum.fin 35 := by
  refine ⟨?_, ?_, by simp⟩
  · norm_num [updateSkills, SkillsObj.allUndef, infGained, skillEMA, getCur, getVal,
      JSNum.isNaN, JSNum.mul, JSNum.add, JSNum.round, JSNum.jmin, Except.map]
  · have h : (⌊min (100 : ℚ) (50 * (7 / 10) + 0 * (3 / 10)) + 1 / 2⌋ : ℤ) = 35 := by
      norm_num [Int.floor_eq_iff]
    norm_num [claimSkillValue, claimFiniteOr, SkillsObj.allUndef, infGained, h]

/-- C5 amended: with the source's defaulting rule (a current or gained value
is kept exactly when it is a number other than `NaN`, defaults `50` and `0`
respectively), every output of `updateSkills` equals the claim's shape
`round(min(100, c*0.7 + g*0.3))` — clamping before or after rounding is
indistinguishable. -/
theorem updateSkills_claim_shape (cur g : SkillsObj) (k : JSNum) :
    updateSkills cur (some g) k = .ok
      { empathy := specEMA cur.empathy g.empathy,
        conflictResolution := specEMA cur.conflictResolution g.conflictResolution,
        boundaryKeeping := specEMA cur.boundaryKeeping g.boundaryKeeping,
        patience := specEMA cur.patience g.patience } := by
  simp [updateSkills, specEMA_eq_skillEMA]

/-! ## C4 — failure modes of the fold -/

/-- C4 counterexample: with `score = NaN` (not a finite number in range) the
fold does not fail — it succeeds and stores `averageScore = NaN`.  No
`InvalidInput` failure is ever signaled for a bad score. -/
theorem nan_score_fold_succeeds :
    (saveSessionResults initialUserDoc nanScoreSession 0).isOk = true ∧
      (saveSessionResults initialUserDoc nanScoreSession 0).map
        (fun r => r.1.progress.averageScore) = .ok .nan := by
  rw [saveSessionResults_eq initialUserDoc nanScoreSession _ 0 rfl]
  norm_num [initialUserDoc, initialProgress, nanScoreSession,
    JSNum.add, JSNum.mul, JSNum.div, JSNum.round, Except.map, Except.isOk, Except.toBool]

/-- C4 amended: the fold performs no numeric validation at all.  It fails
(with the `TypeError` thrown inside `updateSkills`) exactly when the
session's `skillsGained` object is absent, and succeeds on every session
whose `skillsGained` is present — non-finite or out-of-range scores are
propagated into the stored state, never rejected. -/
theorem saveSessionResults_isOk_iff_gains_present (doc : UserDoc) (s : Session) (now : ℤ) :
    (saveSessionResults doc s now).isOk = s.skillsGained.isSome := by
  cases h : s.skillsGained with
  | none => simp [saveSessionResults, updateSkills, h, Except.isOk, Except.toBool]
  | some g => simp [saveSessionResults_eq doc s g now h, Except.isOk, Except.toBool]

/-! ## C8 — skill outputs stay in range -/

/-- C8: when every present current value and every present gained value is a
whole number in `[0, 100]`, all four outputs of `updateSkills` are finite
values in `[0, 100]`: the upper bound comes from the explicit `min 100`
clamp, the lower bound from both weighted terms being non-negative. -/
theorem updateSkills_output_in_range (cur g : SkillsObj) (k : JSNum)
    (hc : cur.InRange) (hg : g.InRange) :
    ∃ r, updateSkills cur (some g) k = .ok r ∧
      r.empathy.Bounded ∧ r.conflictResolution.Bounded ∧
      r.boundaryKeeping.Bounded ∧ r.patience.Bounded :=
  ⟨_, rfl, skillEMA_bounded _ _ hc.1 hg.1, skillEMA_bounded _ _ hc.2.1 hg.2.1,
    skillEMA_bounded _ _ hc.2.2.1 hg.2.2.1, skillEMA_bounded _ _ hc.2.2.2 hg.2.2.2⟩

theorem updateSkills_output_in_range_witness :
    SkillsObj.allUndef.InRange ∧
      ∃ r, updateSkills SkillsObj.allUndef (some SkillsObj.allUndef) (.fin 1) = .ok r ∧
        r.empathy.Bounded ∧ r.conflictResolution.Bounded ∧
        r.boundaryKeeping.Bounded ∧ r.patience.Bounded := by
  have hwf : SkillsObj.InRange SkillsObj.allUndef := by
    simp [SkillsObj.InRange, ValIn100, SkillsObj.allUndef]
  exact ⟨hwf, updateSkills_output_in_range SkillsObj.allUndef SkillsObj.allUndef
    (.fin 1) hwf hwf⟩

/-! ## C6 — incremental mean -/

/-- C6: for a prior state with `totalSessions = n` and `averageScore = a` and
a session of score `s`, the fold stores `totalSessions = n + 1` and
`averageScore = round((a*n + s) / (n+1))`, recomputed from the old rounded
average and count. -/
theorem averageScore_incremental_mean (doc : UserDoc) (s : Session) (now : ℤ)
    (n : ℕ) (a sc : ℚ) (g : SkillsObj)
    (hT : doc.progress.totalSessions = .fin n)
    (hA : doc.progress.averageScore = .fin a)
    (hS : s.score = .fin sc)
    (hG : s.skillsGained = some g) :
    ∃ r, saveSessionResults doc s now = .ok r ∧
      r.1.progress.totalSessions = .fin ((n : ℚ) + 1) ∧
      r.1.progress.averageScore =
        .fin ((⌊(a * (n : ℚ) + sc) / ((n : ℚ) + 1) + 1 / 2⌋ : ℤ) : ℚ) := by
  have hden : ((n : ℚ) + 1) ≠ 0 := by positivity
  refine ⟨_, saveSessionResults_eq doc s g now hG, ?_, ?_⟩
  · simp [hT, JSNum.add]
  · simp [hT, hA, hS, JSNum.add, JSNum.mul, JSNum.div, JSNum.round, hden]

/-- Witness for C6, the spec's second-session scenario: after a first session
of score `95`, a second of score `60` gives `round((95*1 + 60)/2) = 78`. -/
theorem averageScore_incremental_mean_witness :
    ∃ r, saveSessionResults secondSessionDoc secondSession 86400000 = .ok r ∧
      r.1.progress.totalSessions = .fin 2 ∧
      r.1.progress.averageScore = .fin 78 := by
  obtain ⟨r, h1, h2, h3⟩ :=
    averageScore_incremental_mean secondSessionDoc secondSession 86400000 1 95 60
      SkillsObj.allUndef (by norm_num [secondSessionDoc]) rfl rfl rfl
  refine ⟨r, h1, ?_, ?_⟩
  · rw [h2]; norm_num
  · rw [h3]; norm_num [Int.floor_eq_iff]

/-! ## C2 — the concrete first-session scenario -/

/-- C2: evaluating the fold on the spec's first-session scenario.  The
progress and skill expectations all hold (`totalSessions = 1`,
`averageScore = 95`, `streak = 1`, `empathy = 62`, `patience = 64`, and
`patient_teacher` stays locked), but the newly-unlocked set is
`{perfectionist}` only: `first_session` is NOT unlocked, because
`checkAchievements` evaluates requirements against the pre-update document,
whose `totalSessions` is still `0`. -/
theorem scenario_first_fold_eval :
    saveSessionResults scenarioDoc scenarioSession 0 = .ok
      ({ progress := { totalSessions := .fin 1, completedScenarios := .fin 1,
                       averageScore := .fin 95, totalTimeSpent := .fin 600,
                       streak := .fin 1, lastSessionDate := some 0 },
         skills := { empathy := .num (.fin 62), conflictResolution := .num (.fin 35),
                     boundaryKeeping := .num (.fin 35), patience := .num (.fin 64) },
         achievements := { firstSession := false, empathyMaster := false,
                           patientTeacher := false, perfectionist := true,
                           weekStreak := false } },
       { firstSession := false, empathyMaster := false, patientTeacher := false,
         perfectionist := true, weekStreak := false }) := by
  rw [saveSessionResults_eq scenarioDoc scenarioSession _ 0 rfl]
  have h62 : skillEMA .undef (.num (.fin 90)) = .fin 62 :=
    skillEMA_fin_eval _ _ 50 90 62 rfl rfl (by norm_num [Int.floor_eq_iff]) (by norm_num)
  have h64 : skillEMA .undef (.num (.fin 95)) = .fin 64 :=
    skillEMA_fin_eval _ _ 50 95 64 rfl rfl (by norm_num [Int.floor_eq_iff]) (by norm_num)
  have h35 : skillEMA .undef .undef = .fin 35 :=
    skillEMA_fin_eval _ _ 50 0 35 rfl rfl (by norm_num [Int.floor_eq_iff]) (by norm_num)
  have havg : (⌊(0 * 0 + 95 : ℚ) / (0 + 1) + 1 / 2⌋ : ℤ) = 95 := by
    norm_num [Int.floor_eq_iff]
  norm_num [scenarioDoc, scenarioSession, initialProgress, SkillsObj.allUndef,
    AchSet.none, AchSet.union, checkAchievements, calculateStreak,
    JSNum.add, JSNum.mul, JSNum.div, JSNum.round, JSNum.ge, JSVal.ge,
    h62, h64, h35, havg]

/-! ## C1 — when first_session actually unlocks -/

/-- C1: starting from the freshly created user document, the first fold
brings `totalSessions` to `1` yet does NOT unlock `first_session` (its
requirement is evaluated against the stale pre-update document, where
`totalSessions` is still `0`); the same session folded a second time, a day
later, does unlock it.  The unlock therefore happens on the second call, not
on the first call after which `totalSessions ≥ 1`. -/
theorem first_session_unlock_lags_one_fold :
    (saveSessionResults initialUserDoc probeSession 0).bind
      (fun r => (saveSessionResults r.1 probeSession 86400000).map
        (fun r2 => (r.1.progress.totalSessions, r.2.firstSession, r2.2.firstSession))) =
    .ok (.fin 1, false, true) := by
  rw [saveSessionResults_eq initialUserDoc probeSession _ 0 rfl]
  simp only [Except.bind]
  rw [saveSessionResults_eq _ probeSession _ 86400000 rfl]
  norm_num [initialUserDoc, initialProgress, probeSession, AchSet.none, AchSet.union,
    checkAchievements, calculateStreak, JSNum.add, JSNum.ge, Except.map]

end TeacherSim
